import Mathlib

/-!
Shallow embedding of the skewt-react SkewT-logP chart core
(src/index.ts component, src/utils/drawFunctions.ts, src/utils/conversions.ts,
src/utils/windBarbs.ts, src/constants.ts, src/types.ts).

Numbers are modelled by the rationals; the d3 scale functions that the
drawing code receives as parameters are modelled as opaque function
parameters of type rational to rational, exactly as the TypeScript
utility functions receive them. Where a claim is genuinely about the
JavaScript distinction between NaN, infinite and finite numbers
(the dry-adiabat clamp), a dedicated JsNum type models that
distinction explicitly.
-/

/-- One atmospheric observation; mirrors the SkewTMeasurement type of
src/types.ts. Optional numeric fields are Option rationals:
none models an absent field (the typeof check of the source fails). -/
structure SkewTMeasurement where
  press : ℚ
  hght : Option ℚ
  temp : Option ℚ
  dwpt : Option ℚ
  wdir : Option ℚ
  wspd : Option ℚ
deriving DecidableEq, Repr

/-- Placeholder measurement used only for out-of-range array reads,
mirroring that JavaScript array indexing is total (undefined). -/
def dummyMeasurement : SkewTMeasurement := ⟨0, none, none, none, none, none⟩

/-- convertWindSpeed from src/utils/conversions.ts: switch on the unit
token, kt multiplies by 1.943844492, kmh by 3.6, default passes through. -/
def convertWindSpeed (msvalue : ℚ) (unit : String) : ℚ :=
  if unit = "kt" then msvalue * 1.943844492
  else if unit = "kmh" then msvalue * 3.6
  else msvalue

/-- getSmallestPressureValue from src/utils/drawFunctions.ts: returns 100
for an empty list, otherwise reduces over the whole list with the first
element's press as initial accumulator. -/
def getSmallestPressureValue : List SkewTMeasurement → ℚ
  | [] => 100
  | m :: rest =>
      (m :: rest).foldl (fun mn c => if c.press < mn then c.press else mn) m.press

/-- The top pressure computation of the component in src/index.ts:
topp = Math.max(50, getSmallestPressureValue(data) - 10). -/
def toppOf (data : List SkewTMeasurement) : ℚ :=
  max 50 (getSmallestPressureValue data - 10)

/-- The definedness test for temperature used throughout the component:
typeof d.temp is number and d.temp is greater than -1000. -/
def tempDefined (s : SkewTMeasurement) : Bool :=
  match s.temp with
  | some t => decide (-1000 < t)
  | none => false

/-- The definedness test for dew point: typeof d.dwpt is number and
d.dwpt is greater than -1000. -/
def dwptDefined (s : SkewTMeasurement) : Bool :=
  match s.dwpt with
  | some t => decide (-1000 < t)
  | none => false

/-- The filter predicate of the skewtline array in src/index.ts:
temperature and dew point must both be defined. -/
def bothDefined (s : SkewTMeasurement) : Bool :=
  tempDefined s && dwptDefined s

/-- The skewtline array of the component: data filtered to samples with
both temperature and dew point defined. -/
def skewtlineOf (data : List SkewTMeasurement) : List SkewTMeasurement :=
  data.filter bothDefined

/-- The wind validity test of the barb filters: wdir and wspd are both
present as numbers and non-negative. -/
def windOk (s : SkewTMeasurement) : Bool :=
  (match s.wdir with
   | some q => decide (0 ≤ q)
   | none => false) &&
  (match s.wspd with
   | some q => decide (0 ≤ q)
   | none => false)

/-- The barb data selection of drawLines in src/index.ts: filters the
already temperature-and-dew-point-filtered skewtline by wind validity
and pressure at or above the top pressure. -/
def componentBarbs (data : List SkewTMeasurement) (topp : ℚ) : List SkewTMeasurement :=
  (skewtlineOf data).filter (fun s => windOk s && decide (topp ≤ s.press))

/-- The barb data selection of drawWindBarbs in src/utils/windBarbs.ts:
filters the raw data by wind validity and pressure at or above the top
pressure. -/
def drawWindBarbsList (data : List SkewTMeasurement) (topp : ℚ) : List SkewTMeasurement :=
  data.filter (fun s => windOk s && decide (topp ≤ s.press))

/-- The coordinate frame closed over by the drawing code: the d3 linear
temperature scale x, the d3 logarithmic pressure scale y, the base
pressure and the tangent of the skew angle, all received as opaque
values exactly as the utilities in src/utils/drawFunctions.ts do. -/
structure CoordinateFrame where
  x : ℚ → ℚ
  y : ℚ → ℚ
  basep : ℚ
  tan : ℚ

/-- Modelled from the spec: the single skew offset formula
screenX = x(temperature) + (y(basePressure) - y(pressure)) / tan(skewAngle)
that section 4.1 of the spec says every curve family reuses. -/
def specSkewX (fr : CoordinateFrame) (t p : ℚ) : ℚ :=
  fr.x t + (fr.y fr.basep - fr.y p) / fr.tan

/-- The x accessor of the temperature line generator in src/index.ts:
x(d.temp) + (y(basep) - y(d.press)) / tan, written on the temperature
and pressure values. -/
def templineX (fr : CoordinateFrame) (t p : ℚ) : ℚ :=
  fr.x t + (fr.y fr.basep - fr.y p) / fr.tan

/-- The x accessor of the dew point line generator in src/index.ts. -/
def dewlineX (fr : CoordinateFrame) (t p : ℚ) : ℚ :=
  fr.x t + (fr.y fr.basep - fr.y p) / fr.tan

/-- The x translation of the temperature tooltip focus in setupTooltips. -/
def tooltipTempX (fr : CoordinateFrame) (t p : ℚ) : ℚ :=
  fr.x t + (fr.y fr.basep - fr.y p) / fr.tan

/-- The x translation of the dew point tooltip focus in setupTooltips. -/
def tooltipDewX (fr : CoordinateFrame) (t p : ℚ) : ℚ :=
  fr.x t + (fr.y fr.basep - fr.y p) / fr.tan

/-- The x1 attribute of an isotherm line in drawBackground:
x(d) - 0.5 + (y(basep) - y(100)) / tan, at the top of the plot. -/
def isothermTopX (fr : CoordinateFrame) (t : ℚ) : ℚ :=
  fr.x t - 1 / 2 + (fr.y fr.basep - fr.y 100) / fr.tan

/-- The x2 attribute of an isotherm line in drawBackground:
x(d) - 0.5, at the bottom of the plot where the pressure is basep. -/
def isothermBottomX (fr : CoordinateFrame) (t : ℚ) : ℚ :=
  fr.x t - 1 / 2

/-- The display temperature of a dry adiabat point in drawBackground:
(273.15 + d) / Math.pow(1000 / p, 0.286) - 273.15, with Math.pow passed
as an opaque function since it is a host builtin. -/
def dryDisplayTemp (pw : ℚ → ℚ → ℚ) (d p : ℚ) : ℚ :=
  (273.15 + d) / pw (1000 / p) 0.286 - 273.15

/-- The x accessor of the dry adiabat line generator in drawBackground
over the rationals, where no NaN exists so the isNaN clamp of the
source is never taken. -/
def dryAdiabatX (fr : CoordinateFrame) (pw : ℚ → ℚ → ℚ) (d p : ℚ) : ℚ :=
  fr.x (dryDisplayTemp pw d p) + (fr.y fr.basep - fr.y p) / fr.tan

/-- The walk of a d3 line generator with a defined predicate over the
points: cur is the segment currently being drawn (in reverse order); a
defined point extends it, an undefined point ends it, and the walk
flushes the open segment at the end of the data. -/
def d3SegmentsGo (defined : SkewTMeasurement → Bool)
    (cur : List SkewTMeasurement) :
    List SkewTMeasurement → List (List SkewTMeasurement)
  | [] => if cur = [] then [] else [cur.reverse]
  | a :: rest =>
      if defined a then d3SegmentsGo defined (a :: cur) rest
      else if cur = [] then d3SegmentsGo defined [] rest
      else cur.reverse :: d3SegmentsGo defined [] rest

/-- The segment structure produced by a d3 line generator with a defined
predicate: maximal runs of consecutive defined points become segments,
and a run of undefined points ends the current segment. -/
def d3Segments (defined : SkewTMeasurement → Bool)
    (l : List SkewTMeasurement) : List (List SkewTMeasurement) :=
  d3SegmentsGo defined [] l

/-- The segments drawn for the temperature polyline of one profile in
src/index.ts: the line generator with the temperature defined predicate
runs on the pre-filtered skewtline. -/
def tempSegmentsOf (data : List SkewTMeasurement) : List (List SkewTMeasurement) :=
  d3Segments tempDefined (skewtlineOf data)

/-- The segments drawn for the dew point polyline of one profile. -/
def dwptSegmentsOf (data : List SkewTMeasurement) : List (List SkewTMeasurement) :=
  d3Segments dwptDefined (skewtlineOf data)

/-- press of the element at an index, total like JavaScript indexing. -/
def pressAt (a : List SkewTMeasurement) (i : ℕ) : ℚ :=
  (a.getD i dummyMeasurement).press

/-- The loop of the d3 bisector left function: while lo is less than hi,
take mid, move lo past mid when the press accessor value is smaller than
the probe, otherwise move hi down to mid. The fuel argument bounds the
iteration count; the interval shrinks strictly each step so any fuel of
at least hi - lo + 1 computes the fixpoint. -/
def bisectGo (a : List SkewTMeasurement) (x : ℚ) : ℕ → ℕ → ℕ → ℕ
  | 0, lo, _ => lo
  | fuel + 1, lo, hi =>
      if lo < hi then
        let mid := (lo + hi) / 2
        if pressAt a mid < x then bisectGo a x fuel (mid + 1) hi
        else bisectGo a x fuel lo mid
      else lo

/-- d3.bisector(d => d.press).left applied with explicit lo and hi. -/
def bisectLeft (a : List SkewTMeasurement) (x : ℚ) (lo hi : ℕ) : ℕ :=
  bisectGo a x (hi - lo + 1) lo hi

/-- The mousemove lookup of setupTooltips in src/index.ts: bisect the
skewtline by pressure with lo 1 and hi length - 1, return no sample when
the index is out of range, otherwise compare the neighbours at i - 1 and
i by absolute pressure difference, strict less preferring the left one. -/
def componentLookup (data : List SkewTMeasurement) (y0 : ℚ) : Option SkewTMeasurement :=
  let i := bisectLeft data y0 1 (data.length - 1)
  if i = 0 ∨ data.length ≤ i then none
  else
    let d0 := data.getD (i - 1) dummyMeasurement
    let d1 := data.getD i dummyMeasurement
    some (if |y0 - d0.press| < |y0 - d1.press| then d0 else d1)

/-- The mousemove lookup of setupTooltips in src/utils/drawFunctions.ts:
identical to the component version except that no bounds check guards
the reads at i - 1 and i, so reading press of a missing element is a
thrown TypeError, modelled as an error value. -/
def dfLookup (data : List SkewTMeasurement) (y0 : ℚ) : Except String SkewTMeasurement :=
  let i := bisectLeft data y0 1 (data.length - 1)
  match data[i - 1]?, data[i]? with
  | some d0, some d1 =>
      Except.ok (if |y0 - d0.press| < |y0 - d1.press| then d0 else d1)
  | _, _ => Except.error "TypeError: reading press of undefined"

/-- A JavaScript number in the dry adiabat pipeline: finite rational,
NaN, or a signed infinity. Signed zero is collapsed to zero. -/
inductive JsNum where
  | num (q : ℚ)
  | nan
  | posInf
  | negInf
deriving DecidableEq, Repr

/-- The JavaScript isNaN test: true exactly on NaN. -/
def JsNum.isNaN : JsNum → Bool
  | nan => true
  | _ => false

/-- The JavaScript isFinite test: true exactly on finite numbers. -/
def JsNum.isFinite : JsNum → Bool
  | num _ => true
  | _ => false

/-- IEEE addition on JsNum. -/
def JsNum.add : JsNum → JsNum → JsNum
  | nan, _ => nan
  | _, nan => nan
  | posInf, negInf => nan
  | negInf, posInf => nan
  | posInf, _ => posInf
  | _, posInf => posInf
  | negInf, _ => negInf
  | _, negInf => negInf
  | num a, num b => num (a + b)

/-- IEEE subtraction on JsNum. -/
def JsNum.sub : JsNum → JsNum → JsNum
  | nan, _ => nan
  | _, nan => nan
  | posInf, posInf => nan
  | negInf, negInf => nan
  | posInf, _ => posInf
  | negInf, _ => negInf
  | num _, posInf => negInf
  | num _, negInf => posInf
  | num a, num b => num (a - b)

/-- IEEE division on JsNum, with signed zero collapsed: a finite number
divided by zero gives an infinity of the numerator sign or NaN for zero
over zero, a finite number divided by an infinity gives zero. -/
def JsNum.div : JsNum → JsNum → JsNum
  | nan, _ => nan
  | _, nan => nan
  | posInf, posInf => nan
  | posInf, negInf => nan
  | negInf, posInf => nan
  | negInf, negInf => nan
  | posInf, num b => if b < 0 then negInf else posInf
  | negInf, num b => if b < 0 then posInf else negInf
  | num _, posInf => num 0
  | num _, negInf => num 0
  | num a, num b =>
      if b = 0 then (if a = 0 then nan else if a < 0 then negInf else posInf)
      else num (a / b)

/-- The raw x value computed inside the dry adiabat line accessor of
drawBackground, before the isNaN clamp:
x((273.15 + d) / Math.pow(1000 / p, 0.286) - 273.15) + (y(basep) - y(p)) / tan.
The scales x and y and the pow builtin are opaque JsNum functions. -/
def drylineRawX (xf yf : JsNum → JsNum) (pw : JsNum → JsNum → JsNum)
    (basep tanv d p : JsNum) : JsNum :=
  JsNum.add
    (xf (JsNum.sub
      (JsNum.div (JsNum.add (JsNum.num 273.15) d)
        (pw (JsNum.div (JsNum.num 1000) p) (JsNum.num 0.286)))
      (JsNum.num 273.15)))
    (JsNum.div (JsNum.sub (yf basep) (yf p)) tanv)

/-- The emitted x value of the dry adiabat line accessor:
return isNaN(xVal) ? 0 : xVal. -/
def drylineX (xf yf : JsNum → JsNum) (pw : JsNum → JsNum → JsNum)
    (basep tanv d p : JsNum) : JsNum :=
  let xVal := drylineRawX xf yf pw basep tanv d p
  if xVal.isNaN then JsNum.num 0 else xVal

/-- d3.range(start, stop, step) over naturals with positive step:
ceil((stop - start) / step) values start + step * i. -/
def d3RangeNat (start stop step : ℕ) : List ℕ :=
  (List.range ((stop - start + step - 1) / step)).map (fun i => start + step * i)

/-- The speeds array of makeWindbarbs: d3.range(5, 105, 5). -/
def barbSpeeds : List ℕ := d3RangeNat 5 105 5

/-- flags = Math.floor(d / 50) in makeWindbarbs. -/
def flagsOf (d : ℕ) : ℕ := d / 50

/-- pennants = Math.floor((d - flags * 50) / 10) in makeWindbarbs. -/
def pennantsOf (d : ℕ) : ℕ := (d - flagsOf d * 50) / 10

/-- halfpennants = Math.floor((d - flags * 50 - pennants * 10) / 5). -/
def halfPennantsOf (d : ℕ) : ℕ := (d - flagsOf d * 50 - pennantsOf d * 10) / 5

/-- One drawn decoration of a wind barb glyph, tagged with the px
position at which its loop iteration drew it. -/
inductive BarbElem where
  | flag (px : ℚ)
  | pennant (px : ℚ)
  | halfPennant (px : ℚ)
deriving DecidableEq, Repr

/-- A wind barb glyph: the stem line of fixed length and the decorations
in drawing order. -/
structure BarbGlyph where
  stemLen : ℚ
  elems : List BarbElem
deriving DecidableEq, Repr

/-- One of the three decoration loops of makeWindbarbs: n iterations,
each drawing an element at the current px and then decrementing px by
the step; returns the drawn elements and the final px. -/
def barbLoop (mk : ℚ → BarbElem) (step : ℚ) : ℕ → ℚ → List BarbElem × ℚ
  | 0, px => ([], px)
  | n + 1, px =>
      let rest := barbLoop mk step n (px - step)
      (mk px :: rest.1, rest.2)

/-- The glyph built for one speed bucket by makeWindbarbs in
src/utils/windBarbs.ts: a stem of length barbsize, then starting at
px = barbsize the flag loop with step 7, the pennant loop with step 3
and the half-pennant loop with step 3. -/
def makeWindbarb (barbsize : ℚ) (d : ℕ) : BarbGlyph :=
  let fl := barbLoop BarbElem.flag 7 (flagsOf d) barbsize
  let pn := barbLoop BarbElem.pennant 3 (pennantsOf d) fl.2
  let hp := barbLoop BarbElem.halfPennant 3 (halfPennantsOf d) pn.2
  { stemLen := barbsize, elems := fl.1 ++ pn.1 ++ hp.1 }

/-- Math.round for the values arising in barb bucketing (non-negative):
floor of the argument plus one half. -/
def jsRound (q : ℚ) : ℤ := ⌊q + 1 / 2⌋

/-- The glyph reference id built in drawWindBarbs and in drawLines of
src/index.ts: barb concatenated with round(knots / 5) * 5 where knots
is convertWindSpeed(wspd, kt). -/
def selectedBarbId (wspd : ℚ) : String :=
  "barb" ++ toString (jsRound (convertWindSpeed wspd "kt" / 5) * 5)

/-- The glyph ids defined by makeWindbarbs: barb concatenated with each
element of the speeds array. -/
def constructedBarbIds : List String :=
  barbSpeeds.map (fun d => "barb" ++ toString d)

/-- The single combined transform placing one barb in drawLines:
translate(w, y(press)) rotate(wdir + 180). -/
structure BarbPlacement where
  translateX : ℚ
  translateY : ℚ
  rotateDeg : ℚ
deriving DecidableEq, Repr

/-- The transform attribute computed for a barb sample, with the y scale
opaque: translate(w, y(d.press)) rotate(d.wdir + 180). -/
def barbTransform (yf : ℚ → ℚ) (w : ℚ) (s : SkewTMeasurement) : BarbPlacement :=
  ⟨w, yf s.press, s.wdir.getD 0 + 180⟩

/-- A concrete profile whose minimum pressure is 700 hPa. -/
def profC7 : List SkewTMeasurement :=
  [⟨1000, none, none, none, none, none⟩, ⟨700, none, none, none, none, none⟩,
   ⟨925, none, none, none, none, none⟩]

/-- A concrete coordinate frame with identity scales, base pressure 1050
and skew tangent 1, used to compare curve family x formulas. -/
def frC1 : CoordinateFrame := ⟨fun q => q, fun q => q, 1050, 1⟩

/-- Sample at 1000 hPa with defined temperature and dew point. -/
def sampA : SkewTMeasurement := ⟨1000, none, some 20, some 10, none, none⟩

/-- Sample at 850 hPa whose temperature carries the -2000 sentinel
(undefined) while its dew point is defined. -/
def sampB : SkewTMeasurement := ⟨850, none, some (-2000), some 5, none, none⟩

/-- Sample at 700 hPa with defined temperature and dew point. -/
def sampC : SkewTMeasurement := ⟨700, none, some 2, some (-5), none, none⟩

/-- Sample with valid wind and pressure in range but sentinel
temperature and dew point. -/
def sampNoTemp : SkewTMeasurement := ⟨500, none, some (-2000), some (-2000), some 90, some 10⟩

/-- The four-sample monotonic profile of the nearest-sample claim, with
pressures 1000, 850, 700, 500 hPa, in the descending order soundings use. -/
def samp1000 : SkewTMeasurement := ⟨1000, none, some 25, some 20, none, none⟩

/-- 850 hPa sample of the nearest-sample profile. -/
def samp850 : SkewTMeasurement := ⟨850, none, some 14, some 8, none, none⟩

/-- 700 hPa sample of the nearest-sample profile. -/
def samp700 : SkewTMeasurement := ⟨700, none, some 2, some (-5), none, none⟩

/-- 500 hPa sample of the nearest-sample profile. -/
def samp500 : SkewTMeasurement := ⟨500, none, some (-15), some (-25), none, none⟩

/-- The nearest-sample profile [1000, 850, 700, 500] hPa. -/
def profC2 : List SkewTMeasurement := [samp1000, samp850, samp700, samp500]

/-- A one-sample profile for the degenerate lookup cases. -/
def sampSingle : SkewTMeasurement := ⟨900, none, some 10, some 5, none, none⟩

/-- A sample with valid wind whose speed 1 m/s converts to about 1.94
knots, bucketing to 0. -/
def sampLowWind : SkewTMeasurement := ⟨500, none, some 0, some 0, some 90, some 1⟩

/-- A sample with valid wind whose speed 53 m/s converts to about 103
knots, bucketing to 105. -/
def sampHighWind : SkewTMeasurement := ⟨400, none, some 0, some 0, some 270, some 53⟩

/-! ## Theorems -/

/-- The fold used by getSmallestPressureValue never exceeds its
initial accumulator. -/
theorem foldl_press_min_le_init (l : List SkewTMeasurement) (a : ℚ) :
    l.foldl (fun mn c => if c.press < mn then c.press else mn) a ≤ a := by
  induction l generalizing a with
  | nil => simp
  | cons x xs ih =>
      simp only [List.foldl_cons]
      by_cases h : x.press < a
      · simp only [if_pos h]
        exact le_trans (ih x.press) (le_of_lt h)
      · simp only [if_neg h]
        exact ih a

/-- The fold used by getSmallestPressureValue is a lower bound for every
pressure in the list. -/
theorem foldl_press_min_le_mem (l : List SkewTMeasurement) (a : ℚ) :
    ∀ s ∈ l, l.foldl (fun mn c => if c.press < mn then c.press else mn) a ≤ s.press := by
  induction l generalizing a with
  | nil => intro s hs; cases hs
  | cons x xs ih =>
      intro s hs
      simp only [List.foldl_cons]
      rcases List.mem_cons.mp hs with h | h
      · subst h
        by_cases hx : s.press < a
        · simp only [if_pos hx]
          exact foldl_press_min_le_init xs s.press
        · simp only [if_neg hx]
          exact le_trans (foldl_press_min_le_init xs a) (le_of_not_lt hx)
      · by_cases hx : x.press < a
        · simp only [if_pos hx]; exact ih x.press s h
        · simp only [if_neg hx]; exact ih a s h

/-- The fold used by getSmallestPressureValue returns its initial
accumulator or a pressure from the list. -/
theorem foldl_press_min_init_or_mem (l : List SkewTMeasurement) (a : ℚ) :
    l.foldl (fun mn c => if c.press < mn then c.press else mn) a = a ∨
      (l.foldl (fun mn c => if c.press < mn then c.press else mn) a) ∈
        l.map SkewTMeasurement.press := by
  induction l generalizing a with
  | nil => left; rfl
  | cons x xs ih =>
      simp only [List.foldl_cons, List.map_cons, List.mem_cons]
      by_cases hx : x.press < a
      · simp only [if_pos hx]
        rcases ih x.press with h | h
        · right; left; exact h
        · right; right; exact h
      · simp only [if_neg hx]
        rcases ih a with h | h
        · left; exact h
        · right; right; exact h

/-- C7: for every non-empty profile, getSmallestPressureValue is the
minimum of the press field over all samples, and the displayed top
pressure equals max(50, that minimum minus 10). -/
theorem C7_top_pressure (l : List SkewTMeasurement) (h : l ≠ []) :
    getSmallestPressureValue l ∈ l.map SkewTMeasurement.press ∧
    (∀ s ∈ l, getSmallestPressureValue l ≤ s.press) ∧
    toppOf l = max 50 (getSmallestPressureValue l - 10) := by
  match l, h with
  | m :: rest, _ =>
      refine ⟨?_, ?_, rfl⟩
      · rcases foldl_press_min_init_or_mem (m :: rest) m.press with heq | hmem
        · rw [getSmallestPressureValue, heq]
          simp
        · rw [getSmallestPressureValue]
          exact hmem
      · intro s hs
        exact foldl_press_min_le_mem (m :: rest) m.press s hs

/-- C7 witness: on a concrete profile with minimum pressure 700 hPa the
theorem applies and the top pressure evaluates to 690 hPa. -/
theorem C7_top_pressure_witness :
    (getSmallestPressureValue profC7 ∈ profC7.map SkewTMeasurement.press ∧
      (∀ s ∈ profC7, getSmallestPressureValue profC7 ≤ s.press) ∧
      toppOf profC7 = max 50 (getSmallestPressureValue profC7 - 10)) ∧
    toppOf profC7 = 690 :=
  ⟨C7_top_pressure profC7 (by decide),
   by norm_num [toppOf, getSmallestPressureValue, profC7, max_def]⟩

/-- C9: convertWindSpeed multiplies by 1.943844492 for kt, by 3.6 for kmh,
and passes every other unit token through unchanged; the four concrete
round-trip values of the specification hold exactly. -/
theorem C9_convert_wind_speed :
    (∀ v : ℚ, convertWindSpeed v "kt" = v * 1.943844492) ∧
    (∀ v : ℚ, convertWindSpeed v "kmh" = v * 3.6) ∧
    (∀ (v : ℚ) (u : String), u ≠ "kt" → u ≠ "kmh" → convertWindSpeed v u = v) ∧
    convertWindSpeed 10 "kt" = 19.43844492 ∧
    convertWindSpeed 10 "kmh" = 36 ∧
    convertWindSpeed 10 "ms" = 10 ∧
    convertWindSpeed 10 "unknown" = 10 := by
  refine ⟨fun v => rfl, fun v => rfl, fun v u h1 h2 => ?_,
    by have h : convertWindSpeed 10 "kt" = 10 * 1.943844492 := rfl
       rw [h]; norm_num,
    by have h : convertWindSpeed 10 "kmh" = 10 * 3.6 := rfl
       rw [h]; norm_num,
    by simp [convertWindSpeed], by simp [convertWindSpeed]⟩
  simp [convertWindSpeed, h1, h2]

/-- C9 witness: the conversion theorem applied at concrete inputs,
including a pass-through unit token that is neither kt nor kmh. -/
theorem C9_convert_wind_speed_witness :
    convertWindSpeed 10 "kt" = 19.43844492 ∧ convertWindSpeed 7 "zzz" = 7 :=
  ⟨C9_convert_wind_speed.2.2.2.1,
   C9_convert_wind_speed.2.2.1 7 "zzz" (by decide) (by decide)⟩

/-- C1 counterexample: with identity scales, base pressure 1050 and skew
tangent 1, the profile temperature line places temperature 20 at pressure
1050 at x = 20 (the value of the shared skew formula), while the isotherm
x at the bottom of the plot (which lies at pressure 1050) is 19.5, so the
isotherm x-computation is not identical to the others. -/
theorem C1_counterexample :
    specSkewX frC1 20 1050 = 20 ∧
    templineX frC1 20 1050 = 20 ∧
    isothermBottomX frC1 20 = 39 / 2 ∧
    decide (isothermBottomX frC1 20 = specSkewX frC1 20 1050) = false := by
  refine ⟨?_, ?_, ?_, ?_⟩
  · norm_num [specSkewX, frC1]
  · norm_num [templineX, frC1]
  · norm_num [isothermBottomX, frC1]
  · simp only [decide_eq_false_iff_not]
    norm_num [isothermBottomX, specSkewX, frC1]

/-- C1 amended: the temperature line, dew point line and both tooltip
focus x-computations agree with the shared skew formula for every frame
and every temperature-pressure pair, and the dry adiabat point whose
display temperature is t also agrees; the isotherm endpoints differ from
the formula: the bottom endpoint at pressure basep is offset by one half
pixel, and the top endpoint uses the fixed reference pressure 100 with
the same half pixel offset. -/
theorem C1_amended :
    (∀ (fr : CoordinateFrame) (t p : ℚ),
        templineX fr t p = specSkewX fr t p ∧
        dewlineX fr t p = specSkewX fr t p ∧
        tooltipTempX fr t p = specSkewX fr t p ∧
        tooltipDewX fr t p = specSkewX fr t p) ∧
    (∀ (fr : CoordinateFrame) (pw : ℚ → ℚ → ℚ) (th p t : ℚ),
        dryDisplayTemp pw th p = t → dryAdiabatX fr pw th p = specSkewX fr t p) ∧
    (∀ (fr : CoordinateFrame) (t : ℚ),
        templineX fr t fr.basep - isothermBottomX fr t = 1 / 2) ∧
    (∀ (fr : CoordinateFrame) (t : ℚ),
        isothermTopX fr t = specSkewX fr t 100 - 1 / 2) := by
  refine ⟨fun fr t p => ⟨rfl, rfl, rfl, rfl⟩, fun fr pw th p t h => ?_,
    fun fr t => ?_, fun fr t => ?_⟩
  · unfold dryAdiabatX specSkewX
    rw [h]
  · simp only [templineX, isothermBottomX, sub_self, zero_div, add_zero]
    ring
  · simp only [isothermTopX, specSkewX]
    ring

/-- C1 witness: with the opaque pow builtin returning 1, the dry adiabat
display temperature at potential temperature 10 and pressure 1000 is 10,
and the amended theorem identifies the dry adiabat x with the shared
formula there. -/
theorem C1_witness :
    dryDisplayTemp (fun _ _ => 1) 10 1000 = 10 ∧
    dryAdiabatX frC1 (fun _ _ => 1) 10 1000 = specSkewX frC1 10 1000 := by
  have h : dryDisplayTemp (fun _ _ => 1) 10 1000 = 10 := by
    norm_num [dryDisplayTemp]
  exact ⟨h, C1_amended.2.1 frC1 (fun _ _ => 1) 10 1000 10 h⟩

/-- C3 counterexample: in the profile [sampA, sampB, sampC] the middle
sample has sentinel temperature, yet the drawn temperature polyline is
the single segment [sampA, sampC]: the defined samples on either side of
the undefined run are directly connected, because the pre-filter removes
the undefined sample before the line generator sees the data. -/
theorem C3_counterexample :
    tempDefined sampB = false ∧
    tempSegmentsOf [sampA, sampB, sampC] = [[sampA, sampC]] := by
  decide

/-- Every sample surviving the skewtline filter has defined temperature. -/
theorem skewtline_temp_defined (data : List SkewTMeasurement) :
    ∀ s ∈ skewtlineOf data, tempDefined s = true := by
  intro s hs
  have h := List.of_mem_filter hs
  exact (Bool.and_eq_true _ _ |>.mp h).1

/-- Every sample surviving the skewtline filter has defined dew point. -/
theorem skewtline_dwpt_defined (data : List SkewTMeasurement) :
    ∀ s ∈ skewtlineOf data, dwptDefined s = true := by
  intro s hs
  have h := List.of_mem_filter hs
  exact (Bool.and_eq_true _ _ |>.mp h).2

/-- On a list all of whose samples are defined, the d3 line walk simply
accumulates everything into the open segment. -/
theorem d3SegmentsGo_all_defined (defined : SkewTMeasurement → Bool) :
    ∀ (l : List SkewTMeasurement) (cur : List SkewTMeasurement),
      (∀ a ∈ l, defined a = true) →
      d3SegmentsGo defined cur l =
        (if cur = [] ∧ l = [] then [] else [cur.reverse ++ l])
  | [], cur, _ => by
      by_cases hc : cur = [] <;> simp [d3SegmentsGo, hc]
  | a :: rest, cur, h => by
      have ha : defined a = true := h a (by simp)
      have ihr := d3SegmentsGo_all_defined defined rest (a :: cur)
        (fun x hx => h x (List.mem_cons_of_mem a hx))
      rw [d3SegmentsGo, if_pos ha, ihr]
      simp

/-- On a list all of whose samples are defined, the d3 line generator
produces no break: the whole list is one segment. -/
theorem d3Segments_all_defined (defined : SkewTMeasurement → Bool)
    (l : List SkewTMeasurement) (h : ∀ a ∈ l, defined a = true) :
    d3Segments defined l = if l = [] then [] else [l] := by
  rw [d3Segments, d3SegmentsGo_all_defined defined l [] h]
  by_cases hl : l = [] <;> simp [hl]

/-- C3 amended: samples with undefined temperature or dew point are
removed by the pre-filter before the line generators run, every
surviving sample passes the defined test, and so each profile draws at
most one segment that connects all surviving samples directly: an
undefined run is bridged, not split. -/
theorem C3_amended :
    ∀ data : List SkewTMeasurement,
      tempSegmentsOf data = (if skewtlineOf data = [] then [] else [skewtlineOf data]) ∧
      dwptSegmentsOf data = (if skewtlineOf data = [] then [] else [skewtlineOf data]) := by
  intro data
  exact ⟨d3Segments_all_defined tempDefined (skewtlineOf data) (skewtline_temp_defined data),
    d3Segments_all_defined dwptDefined (skewtlineOf data) (skewtline_dwpt_defined data)⟩

/-- C4 counterexample: a sample with valid non-negative wind and pressure
within range but sentinel temperature and dew point receives no barb from
the component (its barbs are drawn from the pre-filtered skewtline),
although the standalone drawWindBarbs utility would keep it. -/
theorem C4_counterexample :
    windOk sampNoTemp = true ∧
    decide ((50 : ℚ) ≤ sampNoTemp.press) = true ∧
    componentBarbs [sampNoTemp] 50 = [] ∧
    drawWindBarbsList [sampNoTemp] 50 = [sampNoTemp] := by
  decide

/-- C4 amended: in the component a sample receives a barb exactly when
its temperature and dew point are defined and its wind direction and
speed are present and non-negative and its pressure is at least the top
pressure; the standalone utility uses the wind and pressure conditions
alone; the placement transform is translate(w, y(press)) with rotation
wdir + 180. -/
theorem C4_amended :
    (∀ (data : List SkewTMeasurement) (topp : ℚ),
        componentBarbs data topp =
          data.filter (fun s => bothDefined s && (windOk s && decide (topp ≤ s.press)))) ∧
    (∀ (data : List SkewTMeasurement) (topp : ℚ),
        drawWindBarbsList data topp =
          data.filter (fun s => windOk s && decide (topp ≤ s.press))) ∧
    (∀ (yf : ℚ → ℚ) (w : ℚ) (s : SkewTMeasurement),
        barbTransform yf w s = ⟨w, yf s.press, s.wdir.getD 0 + 180⟩) := by
  refine ⟨fun data topp => ?_, fun data topp => rfl, fun yf w s => rfl⟩
  rw [componentBarbs, skewtlineOf, List.filter_filter]
  exact List.filter_congr (fun a _ => by ac_rfl)

/-- C2: evaluated on the descending profile [1000, 850, 700, 500] hPa at
probe pressure 780, the bisect of the code (a left bisect that assumes
an ascending array) returns insertion index 3, so the lookup compares the
700 and 500 hPa samples and returns the 700 hPa sample, although the
850 hPa sample is strictly nearer in absolute pressure difference; both
the component lookup and the drawFunctions lookup do this. -/
theorem C2_lookup_returns_700 :
    bisectLeft profC2 780 1 (profC2.length - 1) = 3 ∧
    componentLookup profC2 780 = some samp700 ∧
    dfLookup profC2 780 = Except.ok samp700 ∧
    |(780 : ℚ) - samp850.press| < |(780 : ℚ) - samp700.press| := by
  have hb : bisectLeft profC2 780 1 3 = 3 := by decide
  refine ⟨by decide, ?_, ?_, ?_⟩
  · simp only [componentLookup, profC2, List.length_cons, List.length_nil]
    norm_num [hb, bisectLeft, bisectGo, pressAt, dummyMeasurement, abs,
      samp1000, samp850, samp700, samp500]
  · simp only [dfLookup, profC2, List.length_cons, List.length_nil]
    norm_num [hb, bisectLeft, bisectGo, pressAt, dummyMeasurement, abs,
      samp1000, samp850, samp700, samp500]
  · norm_num [samp850, samp700, abs]

/-- C5: for an empty or one-sample profile the component lookup guards
its bisect index and reports no active sample, profile lines and barbs
are empty, and the background top pressure falls back to
max(50, 100 - 10) = 90 from the empty-data default of
getSmallestPressureValue; the extracted drawFunctions lookup has no such
guard and faults by reading press of an undefined array element. -/
theorem C5_short_profile_behaviour :
    componentLookup [] 500 = none ∧
    componentLookup [sampSingle] 500 = none ∧
    dfLookup [] 500 = Except.error "TypeError: reading press of undefined" ∧
    dfLookup [sampSingle] 500 = Except.error "TypeError: reading press of undefined" ∧
    skewtlineOf [] = [] ∧
    tempSegmentsOf [] = [] ∧
    componentBarbs [] 50 = [] ∧
    drawWindBarbsList [] 50 = [] ∧
    getSmallestPressureValue [] = 100 ∧
    toppOf [] = 90 := by
  refine ⟨by decide, by decide, rfl, rfl, rfl, rfl, rfl, rfl, rfl, ?_⟩
  norm_num [toppOf, getSmallestPressureValue, max_def]

/-- C6 counterexample: drawBackground receives its scales as arbitrary
function arguments, and for a scale that yields positive infinity the
computed dry adiabat x value is infinite, passes the isNaN test
unchanged and is emitted as non-finite geometry: the clamp replaces only
NaN, not every non-finite number. -/
theorem C6_counterexample :
    drylineX (fun _ => JsNum.posInf) (fun _ => JsNum.num 0) (fun _ _ => JsNum.num 1)
        (JsNum.num 1050) (JsNum.num 1) (JsNum.num (-30)) (JsNum.num 1000) =
      JsNum.posInf ∧
    (drylineX (fun _ => JsNum.posInf) (fun _ => JsNum.num 0) (fun _ _ => JsNum.num 1)
        (JsNum.num 1050) (JsNum.num 1) (JsNum.num (-30)) (JsNum.num 1000)).isFinite =
      false := by
  constructor <;> rfl

/-- C6 amended: the dry adiabat accessor emits 0 exactly when the raw
computed x is NaN and emits the raw value unchanged otherwise, so the
emitted value is never NaN, and it is finite exactly when the raw value
is finite or NaN — an infinite raw value propagates. -/
theorem C6_nan_clamp :
    ∀ (xf yf : JsNum → JsNum) (pw : JsNum → JsNum → JsNum) (basep tanv d p : JsNum),
      drylineX xf yf pw basep tanv d p =
        (if (drylineRawX xf yf pw basep tanv d p).isNaN then JsNum.num 0
         else drylineRawX xf yf pw basep tanv d p) ∧
      (drylineX xf yf pw basep tanv d p).isNaN = false ∧
      (drylineX xf yf pw basep tanv d p).isFinite =
        ((drylineRawX xf yf pw basep tanv d p).isFinite ||
          (drylineRawX xf yf pw basep tanv d p).isNaN) := by
  intro xf yf pw basep tanv d p
  refine ⟨rfl, ?_, ?_⟩ <;>
    rcases hraw : drylineRawX xf yf pw basep tanv d p with q | _ | _ | _ <;>
      simp [drylineX, hraw, JsNum.isNaN, JsNum.isFinite]

/-- Each decoration loop of makeWindbarbs draws its n elements at px,
px minus step, down by step each iteration, and leaves px decremented by
n times the step. -/
theorem barbLoop_eq (mk : ℚ → BarbElem) (step : ℚ) :
    ∀ (n : ℕ) (px : ℚ),
      barbLoop mk step n px =
        (((List.range n).map fun i : ℕ => mk (px - step * (i : ℚ))), px - step * (n : ℚ))
  | 0, px => by simp [barbLoop]
  | n + 1, px => by
      have ih := barbLoop_eq mk step n (px - step)
      rw [barbLoop, ih, List.range_succ_eq_map]
      have htail :
          List.map (fun i : ℕ => mk (px - step - step * (i : ℚ))) (List.range n) =
            List.map ((fun i : ℕ => mk (px - step * (i : ℚ))) ∘ Nat.succ) (List.range n) := by
        refine List.map_congr_left (fun i _ => ?_)
        simp only [Function.comp_apply, Nat.succ_eq_add_one]
        push_cast
        ring_nf
      simp only [List.map_cons, List.map_map, Nat.cast_zero, mul_zero, sub_zero]
      rw [← htail]
      refine congrArg₂ Prod.mk rfl (by push_cast; ring)

/-- C8: the speeds array is exactly the twenty buckets 5 to 100 in steps
of 5 with no duplicates (each glyph is built exactly once); for every
barb size and bucket the glyph has the stem of length barbSize and its
decorations walk inward from px = barbSize, flags decrementing px by 7
and pennants and half-pennants by 3; and bucket 65 decomposes into one
flag, one pennant and one half-pennant. -/
theorem C8_windbarb_glyphs :
    barbSpeeds = [5, 10, 15, 20, 25, 30, 35, 40, 45, 50,
      55, 60, 65, 70, 75, 80, 85, 90, 95, 100] ∧
    barbSpeeds.Nodup ∧
    (∀ (bsize : ℚ) (d : ℕ),
        makeWindbarb bsize d =
          { stemLen := bsize,
            elems :=
              ((List.range (flagsOf d)).map fun i : ℕ =>
                BarbElem.flag (bsize - 7 * (i : ℚ))) ++
              ((List.range (pennantsOf d)).map fun i : ℕ =>
                BarbElem.pennant (bsize - 7 * (flagsOf d : ℚ) - 3 * (i : ℚ))) ++
              ((List.range (halfPennantsOf d)).map fun i : ℕ =>
                BarbElem.halfPennant
                  (bsize - 7 * (flagsOf d : ℚ) - 3 * (pennantsOf d : ℚ) - 3 * (i : ℚ))) }) ∧
    flagsOf 65 = 1 ∧ pennantsOf 65 = 1 ∧ halfPennantsOf 65 = 1 := by
  refine ⟨by decide, by decide, fun bsize d => ?_, by decide, by decide, by decide⟩
  simp only [makeWindbarb, barbLoop_eq]

/-- C10: the reference id selected for a barb placement is barb followed
by round(speed in knots / 5) * 5 while only ids barb5 to barb100 are
ever defined; concrete wind samples with speed 1 m/s (bucket 0) and
53 m/s (bucket 105) pass both barb filters, yet their selected ids are
barb0 and barb105, which are not among the constructed glyph ids, so no
barb renders for them. -/
theorem C10_barb_reference_ids :
    (∀ w : ℚ, selectedBarbId w = "barb" ++ toString (jsRound (w * 1.943844492 / 5) * 5)) ∧
    constructedBarbIds = ["barb5", "barb10", "barb15", "barb20", "barb25",
      "barb30", "barb35", "barb40", "barb45", "barb50", "barb55", "barb60",
      "barb65", "barb70", "barb75", "barb80", "barb85", "barb90", "barb95",
      "barb100"] ∧
    drawWindBarbsList [sampLowWind, sampHighWind] 50 = [sampLowWind, sampHighWind] ∧
    componentBarbs [sampLowWind, sampHighWind] 50 = [sampLowWind, sampHighWind] ∧
    selectedBarbId 1 = "barb0" ∧
    constructedBarbIds.contains "barb0" = false ∧
    selectedBarbId 53 = "barb105" ∧
    constructedBarbIds.contains "barb105" = false := by
  refine ⟨fun w => rfl, by decide, by decide, by decide, ?_, by decide, ?_, by decide⟩
  · have h2 : convertWindSpeed 1 "kt" = 1.943844492 := by
      have h : convertWindSpeed 1 "kt" = 1 * 1.943844492 := rfl
      rw [h]; norm_num
    have h : jsRound (convertWindSpeed 1 "kt" / 5) * 5 = 0 := by
      rw [h2, jsRound]
      have hf : ⌊(1.943844492 : ℚ) / 5 + 1 / 2⌋ = 0 := by
        rw [Int.floor_eq_iff]; norm_num
      rw [hf]
      decide
    rw [selectedBarbId, h]
    decide
  · have h2 : convertWindSpeed 53 "kt" = 103.023758076 := by
      have h : convertWindSpeed 53 "kt" = 53 * 1.943844492 := rfl
      rw [h]; norm_num
    have h : jsRound (convertWindSpeed 53 "kt" / 5) * 5 = 105 := by
      rw [h2, jsRound]
      have hf : ⌊(103.023758076 : ℚ) / 5 + 1 / 2⌋ = 21 := by
        rw [Int.floor_eq_iff]; norm_num
      rw [hf]
      decide
    rw [selectedBarbId, h]
    decide
